import Mathlib

/-!
# Verification of the conrod canvas-split layout engine

Shallow embedding of `src/canvas/split.rs`: the `Split` tree resolver
(`Split::into_ui`) and the three-tier `Style` resolution against a `Theme`.
Rust `f64` scalars are modelled as `ℚ` (the layout math is field arithmetic:
addition, subtraction, halving and division by a child count).
-/

/-- Rust `Scalar` (`f64`), modelled exactly as a rational. -/
abbrev Scalar := ℚ

/-- Colors are opaque values passed through the resolver untouched;
modelled as an opaque token type. -/
abbrev Color := Nat

/-- `position::Direction`: the flow axis and sign along which children
of a split are laid out. -/
inductive Direction where
  | Up
  | Down
  | Left
  | Right
deriving DecidableEq, Repr

/-- `[f64; 2]` dimension pairs. -/
abbrev Dimensions := ℚ × ℚ

/-- `[f64; 2]` point (x, y). -/
abbrev Point := ℚ × ℚ

/-- `vecmath::vec2_add`, componentwise addition. -/
def vec2_add (a b : ℚ × ℚ) : ℚ × ℚ := (a.1 + b.1, a.2 + b.2)

/-- `vecmath::vec2_sub`, componentwise subtraction. -/
def vec2_sub (a b : ℚ × ℚ) : ℚ × ℚ := (a.1 - b.1, a.2 - b.2)

/-- `canvas::split::Padding`: per-edge optional padding overrides. -/
structure Padding where
  maybe_top : Option ℚ
  maybe_bottom : Option ℚ
  maybe_left : Option ℚ
  maybe_right : Option ℚ
deriving DecidableEq, Repr

/-- `canvas::split::Margin`: per-edge optional margin overrides. -/
structure Margin where
  maybe_top : Option ℚ
  maybe_bottom : Option ℚ
  maybe_left : Option ℚ
  maybe_right : Option ℚ
deriving DecidableEq, Repr

/-- `canvas::split::Style`: the per-node style override bundle. -/
structure Style where
  maybe_frame : Option ℚ
  maybe_frame_color : Option Color
  maybe_color : Option Color
  padding : Padding
  margin : Margin
deriving DecidableEq, Repr

/-- `Padding::new`. -/
def Padding.new : Padding := ⟨none, none, none, none⟩

/-- `Margin::new`. -/
def Margin.new : Margin := ⟨none, none, none, none⟩

/-- `Style::new`. -/
def Style.new : Style := ⟨none, none, none, Padding.new, Margin.new⟩

/-- `position::Padding`: fully resolved padding values. -/
structure PosPadding where
  top : ℚ
  bottom : ℚ
  left : ℚ
  right : ℚ
deriving DecidableEq, Repr

/-- `position::Margin`: fully resolved margin values. -/
structure PosMargin where
  top : ℚ
  bottom : ℚ
  left : ℚ
  right : ℚ
deriving DecidableEq, Repr

/-- Modelled from the spec: `theme.rs` is not part of the sources under
verification; per §3 of the spec the `Theme` provides a global default for
every style attribute plus an optional per-kind override bundle (here the
canvas-split entry `maybe_canvas_split`, the only kind this module reads). -/
structure Theme where
  background_color : Color
  frame_color : Color
  frame_width : ℚ
  padding : PosPadding
  margin : PosMargin
  maybe_canvas_split : Option Style
deriving DecidableEq, Repr

/-- `Style::color`: local override, else the theme's canvas-split entry's
color defaulted to the theme background color, else the background color. -/
def Style.color (s : Style) (theme : Theme) : Color :=
  (s.maybe_color.or (theme.maybe_canvas_split.map fun style =>
    style.maybe_color.getD theme.background_color)).getD theme.background_color

/-- `Style::frame`. -/
def Style.frame (s : Style) (theme : Theme) : ℚ :=
  (s.maybe_frame.or (theme.maybe_canvas_split.map fun style =>
    style.maybe_frame.getD theme.frame_width)).getD theme.frame_width

/-- `Style::frame_color`. -/
def Style.frame_color (s : Style) (theme : Theme) : Color :=
  (s.maybe_frame_color.or (theme.maybe_canvas_split.map fun style =>
    style.maybe_frame_color.getD theme.frame_color)).getD theme.frame_color

/-- `Style::padding` (named `resolve_padding` here because `padding` is the
struct field): resolves each of the four edges through the three tiers. -/
def Style.resolve_padding (s : Style) (theme : Theme) : PosPadding :=
  { top := (s.padding.maybe_top.or (theme.maybe_canvas_split.map fun style =>
      style.padding.maybe_top.getD theme.padding.top)).getD theme.padding.top
    bottom := (s.padding.maybe_bottom.or (theme.maybe_canvas_split.map fun style =>
      style.padding.maybe_bottom.getD theme.padding.bottom)).getD theme.padding.bottom
    left := (s.padding.maybe_left.or (theme.maybe_canvas_split.map fun style =>
      style.padding.maybe_left.getD theme.padding.left)).getD theme.padding.left
    right := (s.padding.maybe_right.or (theme.maybe_canvas_split.map fun style =>
      style.padding.maybe_right.getD theme.padding.right)).getD theme.padding.right }

/-- `Style::margin` (named `resolve_margin` here because `margin` is the
struct field): resolves each of the four edges through the three tiers. -/
def Style.resolve_margin (s : Style) (theme : Theme) : PosMargin :=
  { top := (s.margin.maybe_top.or (theme.maybe_canvas_split.map fun style =>
      style.margin.maybe_top.getD theme.margin.top)).getD theme.margin.top
    bottom := (s.margin.maybe_bottom.or (theme.maybe_canvas_split.map fun style =>
      style.margin.maybe_bottom.getD theme.margin.bottom)).getD theme.margin.bottom
    left := (s.margin.maybe_left.or (theme.maybe_canvas_split.map fun style =>
      style.margin.maybe_left.getD theme.margin.left)).getD theme.margin.left
    right := (s.margin.maybe_right.or (theme.maybe_canvas_split.map fun style =>
      style.margin.maybe_right.getD theme.margin.right)).getD theme.margin.right }

/-- An elmesque `Form`: `rect(w, h).filled(color).shift(x, y)` captured as
the data of those constructor calls. -/
structure Form where
  w : ℚ
  h : ℚ
  color : Color
  shift_x : ℚ
  shift_y : ℚ
deriving DecidableEq, Repr

/-- `rect(w, h).filled(c)`: a filled rectangle form at the origin. -/
def rect_filled (w h : ℚ) (c : Color) : Form :=
  ⟨w, h, c, 0, 0⟩

/-- `Form::shift(x, y)`: translate a form. -/
def Form.shift (f : Form) (x y : ℚ) : Form :=
  { f with shift_x := f.shift_x + x, shift_y := f.shift_y + y }

/-- Rust `as i32`: truncation toward zero (the scalars in scope stay far
inside the i32 range, so wrap-around is not modelled). -/
def as_i32 (q : ℚ) : Int :=
  if 0 ≤ q then ⌊q⌋ else ⌈q⌉

/-- An elmesque `Element` produced by `collage`: a fixed-size canvas
holding an ordered list of forms (earlier = further beneath). -/
structure Element where
  w : Int
  h : Int
  forms : List Form
deriving DecidableEq, Repr

/-- `elmesque::element::collage`. -/
def collage (w h : Int) (forms : List Form) : Element :=
  ⟨w, h, forms⟩

/-- One record written by `ui::update_canvas`: the resolved region of one
split (identifier, center position, widget-area position and dimensions,
resolved padding, and the optional drawable element). The constant
`Kind::Split(State)` argument carries no information and is omitted. -/
structure ResolvedRegion where
  id : Nat
  xy : Point
  widget_area_xy : Point
  widget_area_dim : Dimensions
  pad : PosPadding
  maybe_element : Option Element
deriving DecidableEq, Repr

/-- The host `Ui` state as this module sees it: window dimensions, the
read-only theme, and the region store written during a resolution pass. -/
structure Ui where
  win_w : ℚ
  win_h : ℚ
  theme : Theme
  regions : List ResolvedRegion

/-- Modelled from the spec: `ui::update_canvas` lives in `ui.rs`, outside the
sources under verification; per §6 of the spec it is a write-only region-store
sink recording exactly one ResolvedRegion per call, keyed by identifier.
The store is modelled as the ordered log of writes of one pass. -/
def update_canvas (ui : Ui) (id : Nat) (xy : Point) (widget_area_xy : Point)
    (widget_area_dim : Dimensions) (pad : PosPadding)
    (maybe_element : Option Element) : Ui :=
  { ui with regions :=
      ui.regions ++ [⟨id, xy, widget_area_xy, widget_area_dim, pad, maybe_element⟩] }

/-- `canvas::split::Split`: a node of the declarative split tree. -/
inductive Split where
  | mk (id : Nat) (maybe_splits : Option (Direction × List Split))
      (maybe_length : Option ℚ) (style : Style)

/-- Field accessor for `Split.id`. -/
def Split.id : Split → Nat
  | .mk i _ _ _ => i

/-- Field accessor for `Split.maybe_splits`. -/
def Split.maybe_splits : Split → Option (Direction × List Split)
  | .mk _ ms _ _ => ms

/-- Field accessor for `Split.maybe_length`. -/
def Split.maybe_length : Split → Option ℚ
  | .mk _ _ ml _ => ml

/-- Field accessor for `Split.style`. -/
def Split.style : Split → Style
  | .mk _ _ _ st => st

/-- `Split::new`. -/
def Split.new (id : Nat) : Split :=
  .mk id none none Style.new

/-- The fold at split.rs:191-197 computing `(stuck_length, num_not_stuck)`:
the sum of the fixed children's lengths, and the count of children without
an explicit length (seeded with `splits.len()` and decremented per fixed
child). -/
def stuck_fold (splits : List Split) : ℚ × Nat :=
  splits.foldl
    (fun acc split =>
      match split.maybe_length with
      | some length => (acc.1 + length, acc.2 - 1)
      | none => acc)
    (0, splits.length)

/-- The `split_dim` computation at split.rs:200-220: the dimensions shared
by all children that were not given a specific length. -/
def split_dim_shared (direction : Direction) (pad_dim : Dimensions)
    (stuck_length : ℚ) (num_not_stuck : Nat) : Dimensions :=
  match num_not_stuck with
  | 0 => (0, 0)
  | _ =>
    match direction with
    | .Up | .Down =>
      let remaining_height := pad_dim.2 - stuck_length
      let height := if remaining_height > 0 then remaining_height / (num_not_stuck : ℚ) else 0
      (pad_dim.1, height)
    | .Left | .Right =>
      let remaining_width := pad_dim.1 - stuck_length
      let width := if remaining_width > 0 then remaining_width / (num_not_stuck : ℚ) else 0
      (width, pad_dim.2)

/-- The per-child dimension selection at split.rs:235-241: a fixed length
overrides only the flow-axis component of the shared flexible dimension. -/
def child_dim (direction : Direction) (shared : Dimensions)
    (maybe_length : Option ℚ) : Dimensions :=
  match maybe_length with
  | some len =>
    match direction with
    | .Up | .Down => (shared.1, len)
    | .Left | .Right => (len, shared.2)
  | none => shared

/-- The `current_xy` initialisation at split.rs:226-231: the running center
starts at the edge of the padded area appropriate to the direction. -/
def start_xy (direction : Direction) (xy : Point) (pad_dim : Dimensions) : Point :=
  match direction with
  | .Down => (xy.1, xy.2 + pad_dim.2 / 2)
  | .Up => (xy.1, xy.2 - pad_dim.2 / 2)
  | .Left => (xy.1 + pad_dim.1 / 2, xy.2)
  | .Right => (xy.1 - pad_dim.1 / 2, xy.2)

/-- The per-child shift at split.rs:244-261: advance the running center by
half the current child's flow-axis length plus half the previous child's,
and remember the current length; returns `(new current_xy, new prev_length)`. -/
def step_xy (direction : Direction) (current_xy : Point) (sd : Dimensions)
    (prev_length : ℚ) : Point × ℚ :=
  match direction with
  | .Down => ((current_xy.1, current_xy.2 - (sd.2 / 2 + prev_length / 2)), sd.2)
  | .Up => ((current_xy.1, current_xy.2 + (sd.2 / 2 + prev_length / 2)), sd.2)
  | .Left => ((current_xy.1 - (sd.1 / 2 + prev_length / 2), current_xy.2), sd.1)
  | .Right => ((current_xy.1 + (sd.1 / 2 + prev_length / 2), current_xy.2), sd.1)

/-- The margin offset at split.rs:177. -/
def mgn_offset_of (mgn : PosMargin) : Point :=
  (mgn.left - mgn.right, mgn.bottom - mgn.top)

/-- The padding offset at split.rs:180 (note the swapped axes, reproduced
from the source). -/
def pad_offset_of (pad : PosPadding) : Point :=
  (pad.bottom - pad.top, pad.left - pad.right)

/-- The margin shrink at split.rs:178: the outer dimension less the margins. -/
def margin_dim (dim : Dimensions) (mgn : PosMargin) : Dimensions :=
  vec2_sub dim (mgn.left + mgn.right, mgn.top + mgn.bottom)

/-- The frame shrink at split.rs:179: a uniform border of width `frame` on
all four sides. -/
def frame_dim_of (dim : Dimensions) (frame : ℚ) : Dimensions :=
  vec2_sub dim (frame * 2, frame * 2)

/-- The padding shrink at split.rs:181. -/
def pad_dim_of (frame_dim : Dimensions) (pad : PosPadding) : Dimensions :=
  vec2_sub frame_dim (pad.left + pad.right, pad.top + pad.bottom)

/-- The flow-axis component of a dimension pair for a given direction
(height for Up/Down, width for Left/Right). -/
def flow_len (direction : Direction) (d : Dimensions) : ℚ :=
  match direction with
  | .Up | .Down => d.2
  | .Left | .Right => d.1

/-- The cross-axis component of a dimension pair for a given direction
(width for Up/Down, height for Left/Right). -/
def cross_len (direction : Direction) (d : Dimensions) : ℚ :=
  match direction with
  | .Up | .Down => d.1
  | .Left | .Right => d.2

mutual

/-- `Split::into_ui` (split.rs:165-280): resolve style, apply margin, frame
and padding, lay out children (if any) inside the padded area, build the
drawable element and record this node's region. -/
def Split.into_ui (s : Split) (dim : Dimensions) (xy : Point) (ui : Ui) : Ui :=
  match s with
  | .mk id maybe_splits _maybe_length style =>
    let color := style.color ui.theme
    let frame_color := style.frame_color ui.theme
    let frame := style.frame ui.theme
    let pad := style.resolve_padding ui.theme
    let mgn := style.resolve_margin ui.theme
    let mgn_offset := mgn_offset_of mgn
    let dim := margin_dim dim mgn
    let frame_dim := frame_dim_of dim frame
    let pad_offset := pad_offset_of pad
    let pad_dim := pad_dim_of frame_dim pad
    let xy := vec2_add xy mgn_offset
    let ui :=
      match maybe_splits with
      | none => ui
      | some (direction, splits) =>
        let xy2 := vec2_add xy pad_offset
        let sn := stuck_fold splits
        let shared := split_dim_shared direction pad_dim sn.1 sn.2
        let current_xy := start_xy direction xy2 pad_dim
        layout_splits direction splits shared current_xy 0 ui
    let frame_form := rect_filled dim.1 dim.2 frame_color
    let inner_form := rect_filled frame_dim.1 frame_dim.2 color
    let forms := [frame_form.shift xy.1 xy.2, inner_form.shift xy.1 xy.2]
    let element := collage (as_i32 frame_dim.1) (as_i32 frame_dim.2) forms
    update_canvas ui id xy xy dim pad (some element)
termination_by sizeOf s

/-- The child loop at split.rs:234-264, carrying the running center and the
previous child's flow-axis length. -/
def layout_splits (direction : Direction) (splits : List Split)
    (shared : Dimensions) (current_xy : Point) (prev_length : ℚ) (ui : Ui) : Ui :=
  match splits with
  | [] => ui
  | split :: rest =>
    let sd := child_dim direction shared split.maybe_length
    let step := step_xy direction current_xy sd prev_length
    let ui2 := Split.into_ui split sd step.1 ui
    layout_splits direction rest shared step.1 step.2 ui2
termination_by sizeOf splits

end

/-- `Split::set` (split.rs:159-162): seed the root allocation with the
window dimensions at the origin. -/
def Split.set (s : Split) (ui : Ui) : Ui :=
  let dim : Dimensions := (ui.win_w, ui.win_h)
  s.into_ui dim (0, 0) ui

/-- The sequence of centers at which `layout_splits` resolves the children,
read off from the same per-child steps (`child_dim`, `step_xy`) the loop
at split.rs:234-264 performs. -/
def layout_centers (direction : Direction) (splits : List Split)
    (shared : Dimensions) (current_xy : Point) (prev_length : ℚ) : List Point :=
  match splits with
  | [] => []
  | split :: rest =>
    let sd := child_dim direction shared split.maybe_length
    let step := step_xy direction current_xy sd prev_length
    step.1 :: layout_centers direction rest shared step.1 step.2

/-- Spec-side: whether a direction flows along the vertical axis. -/
def dir_vertical : Direction → Bool
  | .Up | .Down => true
  | .Left | .Right => false

/-- Spec-side: the per-step advance sign of the spec's direction table
(Down and Left advance negatively, Up and Right positively). -/
def dir_sign : Direction → ℚ
  | .Down => -1
  | .Up => 1
  | .Left => -1
  | .Right => 1

/-- Spec-side: one advance of the running center, per the spec's table:
move along the flow axis by sign times (half the current child's length
plus half the previous child's length). -/
def spec_advance (vertical : Bool) (sign cur prev : ℚ) (pos : Point) : Point :=
  if vertical then (pos.1, pos.2 + sign * (cur / 2 + prev / 2))
  else (pos.1 + sign * (cur / 2 + prev / 2), pos.2)

/-- Spec-side: the centers described by the spec's recurrence; each child's
flow-axis length is its explicit length if given, else the shared flexible
share; the previous length is 0 before the first child. -/
def spec_centers_aux (vertical : Bool) (sign share : ℚ)
    (lens : List (Option ℚ)) (pos : Point) (prev : ℚ) : List Point :=
  match lens with
  | [] => []
  | l :: rest =>
    let cur := l.getD share
    let pos2 := spec_advance vertical sign cur prev pos
    pos2 :: spec_centers_aux vertical sign share rest pos2 cur

/-- Spec-side: the full center sequence per the spec's direction table,
starting at minus sign times half the padded flow-axis extent. -/
def spec_centers (direction : Direction) (xy : Point) (pad_dim shared : Dimensions)
    (lens : List (Option ℚ)) : List Point :=
  let v := dir_vertical direction
  let sign := dir_sign direction
  let start : Point :=
    if v then (xy.1, xy.2 - sign * (pad_dim.2 / 2))
    else (xy.1 - sign * (pad_dim.1 / 2), xy.2)
  let share := if v then shared.2 else shared.1
  spec_centers_aux v sign share lens start 0

/-- Three-tier cascade correctness for one attribute: a set local override
wins; else a set per-kind theme entry wins; else the global default. -/
def CascadeOK {V : Type} (lo : Option V) (kindAttr : Style → Option V)
    (g : V) (theme : Theme) (resolved : V) : Prop :=
  (∀ v, lo = some v → resolved = v) ∧
  (∀ ts v, lo = none → theme.maybe_canvas_split = some ts → kindAttr ts = some v →
    resolved = v) ∧
  (lo = none → theme.maybe_canvas_split = none → resolved = g) ∧
  (∀ ts, lo = none → theme.maybe_canvas_split = some ts → kindAttr ts = none →
    resolved = g)

/-- The flow-axis length each child of a sibling group is allocated,
assembled from the source computations (`stuck_fold`, `split_dim_shared`,
`child_dim`), in declared order. -/
def allocated_flow_lengths (direction : Direction) (pad_dim : Dimensions)
    (splits : List Split) : List ℚ :=
  splits.map fun s =>
    flow_len direction (child_dim direction
      (split_dim_shared direction pad_dim (stuck_fold splits).1 (stuck_fold splits).2)
      s.maybe_length)

/-- A theme whose defaults are all zero and that has no canvas-split entry. -/
def theme0 : Theme :=
  { background_color := 0, frame_color := 0, frame_width := 0,
    padding := ⟨0, 0, 0, 0⟩, margin := ⟨0, 0, 0, 0⟩, maybe_canvas_split := none }

/-- A fresh 200×100 `Ui` with an empty region store. -/
def ui0 : Ui := ⟨200, 100, theme0, []⟩

/-- A style whose only override is a frame width of 1. -/
def styleF : Style := { Style.new with maybe_frame := some 1 }

/-- A childless split with `styleF`. -/
def leafF : Split := .mk 0 none none styleF

/-- A style whose only override is a bottom padding of 4. -/
def styleP : Style :=
  { Style.new with padding := { Padding.new with maybe_bottom := some 4 } }

/-- A childless split with `styleP`. -/
def leafP : Split := .mk 0 none none styleP

/-- The concrete tree of the spec's scenario: flow Down, first child of
fixed length 30, second child flexible, default styles throughout. -/
def c9_root : Split :=
  .mk 0 (some (Direction.Down,
    [Split.mk 1 none (some 30) Style.new, Split.mk 2 none none Style.new]))
    none Style.new

/-- The sibling group of the conservation witness: one fixed child of
length 30 and one flexible child. -/
def c7_splits : List Split :=
  [Split.mk 1 none (some 30) Style.new, Split.mk 2 none none Style.new]

/-- A sibling group consisting of a single fixed-length child. -/
def c10_splits : List Split := [Split.mk 1 none (some 5) Style.new]

/-- A style whose only override is a color of 7. -/
def styleC : Style := { Style.new with maybe_color := some 7 }

/-- A theme whose canvas-split entry overrides the color with 9. -/
def themeK : Theme :=
  { theme0 with maybe_canvas_split := some { Style.new with maybe_color := some 9 } }

lemma cascadeOK_chain {V : Type} (lo : Option V) (f : Style → Option V) (g : V)
    (theme : Theme) :
    CascadeOK lo f g theme
      ((lo.or (theme.maybe_canvas_split.map fun style => (f style).getD g)).getD g) := by
  refine ⟨?_, ?_, ?_, ?_⟩
  · intro v h; subst h; rfl
  · intro ts v h1 h2 h3; subst h1; rw [h2]; simp [h3]
  · intro h1 h2; subst h1; rw [h2]; rfl
  · intro ts h1 h2 h3; subst h1; rw [h2]; simp [h3]

lemma flow_len_child_dim (direction : Direction) (shared : Dimensions) (ml : Option ℚ) :
    flow_len direction (child_dim direction shared ml) =
      ml.getD (flow_len direction shared) := by
  cases direction <;> cases ml <;> rfl

lemma cross_len_child_dim (direction : Direction) (shared : Dimensions) (ml : Option ℚ) :
    cross_len direction (child_dim direction shared ml) =
      match ml with
      | some _ => cross_len direction shared
      | none => cross_len direction shared := by
  cases direction <;> cases ml <;> rfl

lemma step_xy_spec (direction : Direction) (pos : Point) (sd : Dimensions) (prev : ℚ) :
    step_xy direction pos sd prev =
      (spec_advance (dir_vertical direction) (dir_sign direction)
        (flow_len direction sd) prev pos, flow_len direction sd) := by
  cases direction <;>
    simp [step_xy, spec_advance, dir_vertical, dir_sign, flow_len] <;> ring

lemma start_xy_spec (direction : Direction) (xy : Point) (pad_dim : Dimensions) :
    start_xy direction xy pad_dim =
      (if dir_vertical direction then (xy.1, xy.2 - dir_sign direction * (pad_dim.2 / 2))
       else (xy.1 - dir_sign direction * (pad_dim.1 / 2), xy.2)) := by
  cases direction <;>
    simp [start_xy, dir_vertical, dir_sign]

lemma flow_len_shared (direction : Direction) :
    flow_len direction (0, 0) = 0 := by
  cases direction <;> rfl

lemma stuck_fold_go (splits : List Split) : ∀ (a : ℚ) (k : Nat),
    splits.foldl
      (fun acc split =>
        match split.maybe_length with
        | some length => (acc.1 + length, acc.2 - 1)
        | none => acc) (a, k) =
      (a + (splits.filterMap Split.maybe_length).sum,
       k - splits.countP (fun s => (Split.maybe_length s).isSome)) := by
  induction splits with
  | nil => intro a k; simp
  | cons s rest ih =>
    intro a k
    cases h : s.maybe_length with
    | none =>
      simp only [List.foldl_cons, h, List.countP_cons, List.filterMap_cons, ih]
      simp [h]
    | some l =>
      simp only [List.foldl_cons, h, List.countP_cons, List.filterMap_cons, ih]
      simp only [h, Option.isSome_some, if_pos, Prod.mk.injEq]
      constructor
      · simp; ring
      · omega

lemma count_some_add_none (splits : List Split) :
    splits.countP (fun s => (Split.maybe_length s).isSome) +
      splits.countP (fun s => (Split.maybe_length s).isNone) = splits.length := by
  induction splits with
  | nil => rfl
  | cons s rest ih =>
    cases h : s.maybe_length <;>
      simp [List.countP_cons, h] <;> omega

lemma stuck_fold_spec (splits : List Split) :
    stuck_fold splits =
      ((splits.filterMap Split.maybe_length).sum,
       splits.countP (fun s => (Split.maybe_length s).isNone)) := by
  have h := stuck_fold_go splits 0 splits.length
  have h2 := count_some_add_none splits
  rw [stuck_fold, h]
  simp only [Prod.mk.injEq]
  constructor
  · simp
  · omega

lemma getD_sum (splits : List Split) (q : ℚ) :
    (splits.map (fun s => (Split.maybe_length s).getD q)).sum =
      (splits.filterMap Split.maybe_length).sum +
        (splits.countP (fun s => (Split.maybe_length s).isNone)) * q := by
  induction splits with
  | nil => simp
  | cons s rest ih =>
    cases h : s.maybe_length <;>
      simp [List.countP_cons, h, ih] <;> ring

lemma layout_centers_eq_aux (direction : Direction) (splits : List Split)
    (shared : Dimensions) :
    ∀ pos prev, layout_centers direction splits shared pos prev =
      spec_centers_aux (dir_vertical direction) (dir_sign direction)
        (flow_len direction shared) (splits.map Split.maybe_length) pos prev := by
  induction splits with
  | nil => intro pos prev; rfl
  | cons s rest ih =>
    intro pos prev
    simp only [layout_centers, List.map_cons, spec_centers_aux, step_xy_spec,
      flow_len_child_dim, ih]

lemma layout_splits_zip (direction : Direction) (splits : List Split)
    (shared : Dimensions) :
    ∀ current_xy prev ui, layout_splits direction splits shared current_xy prev ui =
      (splits.zip (layout_centers direction splits shared current_xy prev)).foldl
        (fun acc p => Split.into_ui p.1 (child_dim direction shared p.1.maybe_length) p.2 acc)
        ui := by
  induction splits with
  | nil => intro c p ui; rw [layout_splits]; rfl
  | cons s rest ih =>
    intro c p ui
    rw [layout_splits]
    simp only [layout_centers, List.zip_cons_cons, List.foldl_cons, ih]

lemma clamp_div_max (a b : ℚ) (k : Nat) :
    (if a < b then (b - a) / ((k : ℚ) + 1) else 0) = max 0 ((b - a) / ((k : ℚ) + 1)) := by
  have hn : (0 : ℚ) < (k : ℚ) + 1 := by positivity
  rcases lt_or_le a b with h | h
  · rw [if_pos h, max_eq_right (le_of_lt (div_pos (by linarith) hn))]
  · rw [if_neg (not_lt.mpr h),
      max_eq_left (div_nonpos_iff.mpr (Or.inr ⟨by linarith, hn.le⟩))]

/-- C1: each flexible child of a split node is allocated
`max 0 ((pad_dim.flow_axis - stuck_length) / num_not_stuck)` along the flow
axis and the full cross-axis extent `pad_dim.cross_axis`; when
`num_not_stuck = 0` the shared flexible dimension is zero. -/
theorem C1_flexible_share (direction : Direction) (pad_dim : Dimensions)
    (stuck_length : ℚ) (num_not_stuck : Nat) :
    split_dim_shared direction pad_dim stuck_length 0 = (0, 0) ∧
    (num_not_stuck ≠ 0 →
      flow_len direction (child_dim direction
          (split_dim_shared direction pad_dim stuck_length num_not_stuck) none) =
        max 0 ((flow_len direction pad_dim - stuck_length) / (num_not_stuck : ℚ)) ∧
      cross_len direction (child_dim direction
          (split_dim_shared direction pad_dim stuck_length num_not_stuck) none) =
        cross_len direction pad_dim) := by
  refine ⟨rfl, fun h => ?_⟩
  obtain ⟨k, rfl⟩ := Nat.exists_eq_succ_of_ne_zero h
  cases direction <;>
    simp [split_dim_shared, child_dim, flow_len, cross_len] <;>
    exact clamp_div_max _ _ _

/-- Witness for C1 at direction Down, pad_dim (10, 7), stuck length 3 and
two flexible children: each flexible child gets height 2 and width 10. -/
theorem C1_flexible_share_witness :
    (2 : Nat) ≠ 0 ∧
    flow_len .Down (child_dim .Down (split_dim_shared .Down (10, 7) 3 2) none) =
      max 0 ((flow_len .Down ((10 : ℚ), (7 : ℚ)) - 3) / (2 : ℚ)) ∧
    cross_len .Down (child_dim .Down (split_dim_shared .Down (10, 7) 3 2) none) =
      cross_len .Down ((10 : ℚ), (7 : ℚ)) :=
  ⟨by decide, (C1_flexible_share .Down (10, 7) 3 2).2 (by decide)⟩

/-- C2: the running center positions at which a split's children are
resolved follow the spec's direction table (start at the padded edge,
advance by the signed sum of half the current and half the previous
flow-axis length, previous length 0 before the first child), and the
child loop walks the children in declared order at exactly these centers. -/
theorem C2_direction_table (direction : Direction) (splits : List Split)
    (shared : Dimensions) (xy : Point) (pad_dim : Dimensions) :
    layout_centers direction splits shared (start_xy direction xy pad_dim) 0 =
      spec_centers direction xy pad_dim shared (splits.map Split.maybe_length) ∧
    (∀ current_xy prev ui,
      layout_splits direction splits shared current_xy prev ui =
        (splits.zip (layout_centers direction splits shared current_xy prev)).foldl
          (fun acc p =>
            Split.into_ui p.1 (child_dim direction shared p.1.maybe_length) p.2 acc)
          ui) := by
  refine ⟨?_, layout_splits_zip direction splits shared⟩
  rw [layout_centers_eq_aux, spec_centers, start_xy_spec]
  cases direction <;> simp [dir_vertical, flow_len]

/-- C3: for each of the nine style attributes, a set local override wins
over a set per-kind theme entry, which wins over the theme's global
default. -/
theorem C3_style_cascade (s : Style) (theme : Theme) :
    CascadeOK s.maybe_color (fun ts => ts.maybe_color)
      theme.background_color theme (s.color theme) ∧
    CascadeOK s.maybe_frame (fun ts => ts.maybe_frame)
      theme.frame_width theme (s.frame theme) ∧
    CascadeOK s.maybe_frame_color (fun ts => ts.maybe_frame_color)
      theme.frame_color theme (s.frame_color theme) ∧
    CascadeOK s.padding.maybe_top (fun ts => ts.padding.maybe_top)
      theme.padding.top theme ((s.resolve_padding theme).top) ∧
    CascadeOK s.padding.maybe_bottom (fun ts => ts.padding.maybe_bottom)
      theme.padding.bottom theme ((s.resolve_padding theme).bottom) ∧
    CascadeOK s.padding.maybe_left (fun ts => ts.padding.maybe_left)
      theme.padding.left theme ((s.resolve_padding theme).left) ∧
    CascadeOK s.padding.maybe_right (fun ts => ts.padding.maybe_right)
      theme.padding.right theme ((s.resolve_padding theme).right) ∧
    CascadeOK s.margin.maybe_top (fun ts => ts.margin.maybe_top)
      theme.margin.top theme ((s.resolve_margin theme).top) ∧
    CascadeOK s.margin.maybe_bottom (fun ts => ts.margin.maybe_bottom)
      theme.margin.bottom theme ((s.resolve_margin theme).bottom) ∧
    CascadeOK s.margin.maybe_left (fun ts => ts.margin.maybe_left)
      theme.margin.left theme ((s.resolve_margin theme).left) ∧
    CascadeOK s.margin.maybe_right (fun ts => ts.margin.maybe_right)
      theme.margin.right theme ((s.resolve_margin theme).right) := by
  exact ⟨cascadeOK_chain _ _ _ _, cascadeOK_chain _ _ _ _, cascadeOK_chain _ _ _ _,
    cascadeOK_chain _ _ _ _, cascadeOK_chain _ _ _ _, cascadeOK_chain _ _ _ _,
    cascadeOK_chain _ _ _ _, cascadeOK_chain _ _ _ _, cascadeOK_chain _ _ _ _,
    cascadeOK_chain _ _ _ _, cascadeOK_chain _ _ _ _⟩

/-- C4 counterexample: a childless split with a local frame width of 1 on an
all-zero theme, resolved at outer dimensions (10, 10); the recorded
widget-area dimensions are (10, 10), not the claimed
outer − 2·margin − 2·frame − 2·padding = (8, 8). -/
theorem C4_counterexample :
    (Split.into_ui leafF (10, 10) (0, 0) ui0).regions.map
        ResolvedRegion.widget_area_dim = [((10 : ℚ), (10 : ℚ))] ∧
    leafF.style.frame ui0.theme = 1 ∧
    leafF.style.resolve_margin ui0.theme = ⟨0, 0, 0, 0⟩ ∧
    leafF.style.resolve_padding ui0.theme = ⟨0, 0, 0, 0⟩ ∧
    ((10 : ℚ), (10 : ℚ)) ≠
      ((10 : ℚ) - 2 * 0 - 2 * 1 - 2 * 0, (10 : ℚ) - 2 * 0 - 2 * 1 - 2 * 0) := by
  refine ⟨?_, rfl, rfl, rfl, by norm_num⟩
  simp [Split.into_ui, update_canvas, leafF, styleF, ui0, theme0, Style.new,
    Padding.new, Margin.new, Style.resolve_margin, margin_dim, vec2_sub]

/-- C4 amended: the region recorded for a node has the node's identifier,
the position and widget-area position shifted by the margin offset only,
widget-area dimensions equal to the outer dimensions minus the margins
only, and the resolved padding; the full formula
inner = outer − 2·margin − 2·frame − 2·padding describes the internal
padded dimension used to lay out children, not the recorded dimensions. -/
theorem C4_region_dims (s : Split) (dim : Dimensions) (xy : Point) (ui : Ui) :
    ((Split.into_ui s dim xy ui).regions.getLast?).map
        (fun r => (r.id, r.xy, r.widget_area_xy, r.widget_area_dim, r.pad)) =
      some (s.id,
        vec2_add xy (mgn_offset_of (s.style.resolve_margin ui.theme)),
        vec2_add xy (mgn_offset_of (s.style.resolve_margin ui.theme)),
        margin_dim dim (s.style.resolve_margin ui.theme),
        s.style.resolve_padding ui.theme) ∧
    (∀ (d : Dimensions) (m f p : ℚ),
      pad_dim_of (frame_dim_of (margin_dim d ⟨m, m, m, m⟩) f) ⟨p, p, p, p⟩ =
        (d.1 - 2 * m - 2 * f - 2 * p, d.2 - 2 * m - 2 * f - 2 * p)) := by
  constructor
  · obtain ⟨id, ms, ml, st⟩ := s
    rcases ms with _ | ⟨dir, splits⟩ <;>
      simp [Split.into_ui, update_canvas, List.getLast?_concat, Split.id, Split.style]
  · intro d m f p
    simp only [pad_dim_of, frame_dim_of, margin_dim, vec2_sub, Prod.mk.injEq]
    constructor <;> ring

/-- C5 counterexample: a childless split with bottom padding 4 on an
all-zero theme at position (0, 0); its drawable forms are shifted by
(0, 0) — the margin offset only — while the claimed center after
accumulating margin and padding offsets is (4, 0). -/
theorem C5_counterexample :
    (Split.into_ui leafP (10, 10) (0, 0) ui0).regions.map
        (fun r => r.maybe_element.map fun e => e.forms.map fun f => (f.shift_x, f.shift_y)) =
      [some [((0 : ℚ), (0 : ℚ)), ((0 : ℚ), (0 : ℚ))]] ∧
    pad_offset_of (leafP.style.resolve_padding ui0.theme) = ((4 : ℚ), (0 : ℚ)) ∧
    mgn_offset_of (leafP.style.resolve_margin ui0.theme) = ((0 : ℚ), (0 : ℚ)) ∧
    vec2_add (vec2_add (0, 0) (mgn_offset_of (leafP.style.resolve_margin ui0.theme)))
        (pad_offset_of (leafP.style.resolve_padding ui0.theme)) ≠ ((0 : ℚ), (0 : ℚ)) := by
  refine ⟨?_, ?_, ?_, ?_⟩
  · simp [Split.into_ui, update_canvas, leafP, styleP, ui0, theme0, Style.new,
      Padding.new, Margin.new, Style.resolve_margin, mgn_offset_of, vec2_add,
      rect_filled, Form.shift, collage]
  · norm_num [leafP, styleP, ui0, theme0, Style.new, Padding.new, Margin.new,
      Style.resolve_padding, pad_offset_of, Split.style]
  · norm_num [leafP, styleP, ui0, theme0, Style.new, Padding.new, Margin.new,
      Style.resolve_margin, mgn_offset_of, Split.style]
  · norm_num [leafP, styleP, ui0, theme0, Style.new, Padding.new, Margin.new,
      Style.resolve_margin, Style.resolve_padding, mgn_offset_of, pad_offset_of,
      vec2_add, Prod.ext_iff, Split.style]

/-- C5 amended: the drawable element is a frame-colored rectangle of size
`dim` (the post-margin outer dimension) beneath an inner-colored rectangle
of size `frame_dim`, both centered at the node's position shifted by the
margin offset only (the padding offset affects only where children are
laid out). -/
theorem C5_element (s : Split) (dim : Dimensions) (xy : Point) (ui : Ui) :
    ((Split.into_ui s dim xy ui).regions.getLast?).bind ResolvedRegion.maybe_element =
      (let mgn := s.style.resolve_margin ui.theme
       let d := margin_dim dim mgn
       let fd := frame_dim_of d (s.style.frame ui.theme)
       let c := vec2_add xy (mgn_offset_of mgn)
       some (collage (as_i32 fd.1) (as_i32 fd.2)
         [(rect_filled d.1 d.2 (s.style.frame_color ui.theme)).shift c.1 c.2,
          (rect_filled fd.1 fd.2 (s.style.color ui.theme)).shift c.1 c.2])) := by
  obtain ⟨id, ms, ml, st⟩ := s
  rcases ms with _ | ⟨dir, splits⟩ <;>
    simp [Split.into_ui, update_canvas, List.getLast?_concat, Split.style]

/-- C6: resolution shifts the node's position by the margin offset
(left − right, bottom − top); the padding offset has deliberately swapped
axes — (bottom − top) on x and (left − right) on y — and is applied (after
the margin offset) to the content-area center from which children are laid
out, while the node itself is recorded at the margin-shifted position. -/
theorem C6_offsets (id : Nat) (direction : Direction) (splits : List Split)
    (ml : Option ℚ) (style : Style) (dim : Dimensions) (xy : Point) (ui : Ui) :
    (∀ mgn : PosMargin,
      mgn_offset_of mgn = (mgn.left - mgn.right, mgn.bottom - mgn.top)) ∧
    (∀ pad : PosPadding,
      pad_offset_of pad = (pad.bottom - pad.top, pad.left - pad.right)) ∧
    Split.into_ui (.mk id (some (direction, splits)) ml style) dim xy ui =
      (let mgn := style.resolve_margin ui.theme
       let pad := style.resolve_padding ui.theme
       let d := margin_dim dim mgn
       let fd := frame_dim_of d (style.frame ui.theme)
       let pd := pad_dim_of fd pad
       let xy1 := vec2_add xy (mgn_offset_of mgn)
       let xy2 := vec2_add xy1 (pad_offset_of pad)
       let sn := stuck_fold splits
       let ui2 := layout_splits direction splits
         (split_dim_shared direction pd sn.1 sn.2) (start_xy direction xy2 pd) 0 ui
       update_canvas ui2 id xy1 xy1 d pad
         (some (collage (as_i32 fd.1) (as_i32 fd.2)
           [(rect_filled d.1 d.2 (style.frame_color ui.theme)).shift xy1.1 xy1.2,
            (rect_filled fd.1 fd.2 (style.color ui.theme)).shift xy1.1 xy1.2]))) := by
  refine ⟨fun _ => rfl, fun _ => rfl, ?_⟩
  rw [Split.into_ui]

lemma flow_len_split_dim_shared (direction : Direction) (pad_dim : Dimensions)
    (stuck : ℚ) (n : Nat) (h : n ≠ 0) :
    flow_len direction (split_dim_shared direction pad_dim stuck n) =
      if flow_len direction pad_dim - stuck > 0 then
        (flow_len direction pad_dim - stuck) / (n : ℚ)
      else 0 := by
  obtain ⟨k, rfl⟩ := Nat.exists_eq_succ_of_ne_zero h
  cases direction <;> rfl

/-- C7 counterexample: a sibling group of one fixed-length child (30) under
Down flow in a padded extent of 100 satisfies the claim's hypothesis
(100 ≥ 30) but the allocated lengths sum to 30, not 100. -/
theorem C7_counterexample :
    flow_len .Down ((0 : ℚ), (100 : ℚ)) = 100 ∧
    (stuck_fold [Split.mk 1 none (some 30) Style.new]).1 = 30 ∧
    (30 : ℚ) ≤ 100 ∧
    (allocated_flow_lengths .Down (0, 100) [Split.mk 1 none (some 30) Style.new]).sum
      = 30 ∧
    (30 : ℚ) ≠ 100 := by
  refine ⟨rfl, ?_, by norm_num, ?_, by norm_num⟩
  · norm_num [stuck_fold, Split.maybe_length]
  · norm_num [allocated_flow_lengths, stuck_fold, Split.maybe_length,
      split_dim_shared, child_dim, flow_len]

/-- C7 amended: conservation of space holds for sibling groups with at
least one flexible child: when the padded flow-axis extent is at least the
total fixed length, the allocated flow-axis lengths sum to exactly the
padded extent. -/
theorem C7_conservation (direction : Direction) (pad_dim : Dimensions)
    (splits : List Split)
    (hflex : (stuck_fold splits).2 ≠ 0)
    (hfit : (stuck_fold splits).1 ≤ flow_len direction pad_dim) :
    (allocated_flow_lengths direction pad_dim splits).sum =
      flow_len direction pad_dim := by
  have hspec := stuck_fold_spec splits
  have hs1 : (stuck_fold splits).1 = (splits.filterMap Split.maybe_length).sum :=
    congrArg Prod.fst hspec
  have hs2 : (stuck_fold splits).2 =
      splits.countP (fun s => (Split.maybe_length s).isNone) :=
    congrArg Prod.snd hspec
  have hN : ((stuck_fold splits).2 : ℚ) ≠ 0 := Nat.cast_ne_zero.mpr hflex
  rw [allocated_flow_lengths]
  simp only [flow_len_child_dim]
  rw [getD_sum, flow_len_split_dim_shared _ _ _ _ hflex, ← hs1, ← hs2]
  set E := flow_len direction pad_dim with hE
  set F := (stuck_fold splits).1 with hF
  rcases lt_or_le F E with h | h
  · rw [if_pos (by linarith), mul_comm ((((stuck_fold splits).2 : ℕ) : ℚ)) _,
      div_mul_cancel₀ _ hN]
    ring
  · have hEF : E = F := le_antisymm h hfit
    rw [if_neg (by simp [hEF]), mul_zero, add_zero, hEF]

/-- Witness for C7 at Down flow, padded extent 100, one fixed child of
length 30 and one flexible child: the allocations sum to 100. -/
theorem C7_conservation_witness :
    (stuck_fold c7_splits).2 ≠ 0 ∧
    (stuck_fold c7_splits).1 ≤ flow_len .Down ((0 : ℚ), (100 : ℚ)) ∧
    (allocated_flow_lengths .Down (0, 100) c7_splits).sum =
      flow_len .Down ((0 : ℚ), (100 : ℚ)) :=
  ⟨by norm_num [stuck_fold, c7_splits, Split.maybe_length],
   by norm_num [stuck_fold, c7_splits, Split.maybe_length, flow_len],
   C7_conservation .Down (0, 100) c7_splits
     (by norm_num [stuck_fold, c7_splits, Split.maybe_length])
     (by norm_num [stuck_fold, c7_splits, Split.maybe_length, flow_len])⟩

/-- C8: resolving a childless split records exactly one region, whose
widget-area dimensions are the allocated dimensions minus the margins. -/
theorem C8_single_node (id : Nat) (ml : Option ℚ) (style : Style)
    (dim : Dimensions) (xy : Point) (ui : Ui) (h : ui.regions = []) :
    (Split.into_ui (.mk id none ml style) dim xy ui).regions.length = 1 ∧
    (Split.into_ui (.mk id none ml style) dim xy ui).regions.map
        ResolvedRegion.widget_area_dim =
      [margin_dim dim (style.resolve_margin ui.theme)] := by
  simp [Split.into_ui, update_canvas, h]

/-- Witness for C8 on a fresh 200×100 Ui with a default-styled childless
split. -/
theorem C8_single_node_witness :
    ui0.regions = [] ∧
    (Split.into_ui (.mk 3 none none Style.new) (200, 100) (0, 0) ui0).regions.length
      = 1 ∧
    (Split.into_ui (.mk 3 none none Style.new) (200, 100) (0, 0) ui0).regions.map
        ResolvedRegion.widget_area_dim =
      [margin_dim (200, 100) (Style.new.resolve_margin ui0.theme)] :=
  ⟨rfl, (C8_single_node 3 none Style.new (200, 100) (0, 0) ui0 rfl).1,
    (C8_single_node 3 none Style.new (200, 100) (0, 0) ui0 rfl).2⟩

/-- C9: in a 200×100 window, a root with flow Down whose first child has
fixed length 30 and second child is flexible (all styles default, all-zero
theme) resolves the first child to (200, 30) at y = 35, the second to
(200, 70) at y = −15, immediately below (the first child's bottom edge 20
is the second child's top edge). -/
theorem C9_scenario :
    (c9_root.set ui0).regions.map (fun r => (r.id, r.xy, r.widget_area_dim)) =
      [(1, ((0 : ℚ), (35 : ℚ)), ((200 : ℚ), (30 : ℚ))),
       (2, (0, -15), (200, 70)),
       (0, (0, 0), (200, 100))] ∧
    (35 : ℚ) - 30 / 2 = -15 + 70 / 2 := by
  constructor
  · simp [c9_root, Split.set, Split.into_ui, layout_splits, ui0, theme0, Style.new,
      Padding.new, Margin.new, Style.color, Style.frame, Style.frame_color,
      Style.resolve_padding, Style.resolve_margin, update_canvas, vec2_add, vec2_sub,
      mgn_offset_of, pad_offset_of, stuck_fold, split_dim_shared, child_dim,
      start_xy, step_xy, Split.maybe_length, margin_dim, frame_dim_of, pad_dim_of,
      Split.id]
    norm_num
  · norm_num

/-- C10: when every child of a split has a fixed length, the shared
flexible dimension is [0, 0] and each child's allocated cross-axis
dimension is zero (not the parent's padded cross-axis extent). -/
theorem C10_all_fixed (direction : Direction) (pad_dim : Dimensions)
    (splits : List Split)
    (h : ∀ s ∈ splits, (Split.maybe_length s).isSome) :
    (stuck_fold splits).2 = 0 ∧
    split_dim_shared direction pad_dim (stuck_fold splits).1 (stuck_fold splits).2
      = (0, 0) ∧
    ∀ s ∈ splits, cross_len direction (child_dim direction
        (split_dim_shared direction pad_dim (stuck_fold splits).1
          (stuck_fold splits).2) s.maybe_length) = 0 := by
  have h2 : (stuck_fold splits).2 = 0 := by
    rw [stuck_fold_spec]
    simp only
    rw [List.countP_eq_zero]
    intro a ha
    obtain ⟨len, hlen⟩ := Option.isSome_iff_exists.mp (h a ha)
    simp [hlen]
  refine ⟨h2, by rw [h2]; rfl, ?_⟩
  intro s hs
  obtain ⟨len, hlen⟩ := Option.isSome_iff_exists.mp (h s hs)
  rw [h2, hlen]
  cases direction <;> simp [split_dim_shared, child_dim, cross_len]

/-- Witness for C10 with a single fixed-length child of length 5 under
Down flow in a (10, 10) padded area: its cross-axis (width) allocation is
zero. -/
theorem C10_all_fixed_witness :
    (stuck_fold c10_splits).2 = 0 ∧
    cross_len .Down (child_dim .Down
      (split_dim_shared .Down ((10 : ℚ), (10 : ℚ)) (stuck_fold c10_splits).1
        (stuck_fold c10_splits).2)
      (Split.mk 1 none (some 5) Style.new).maybe_length) = 0 :=
  ⟨(C10_all_fixed .Down (10, 10) c10_splits
      (by simp [c10_splits, Split.maybe_length])).1,
   (C10_all_fixed .Down (10, 10) c10_splits
      (by simp [c10_splits, Split.maybe_length])).2.2
     (Split.mk 1 none (some 5) Style.new) (List.Mem.head _)⟩

/-- Witness for C3 exercising each tier of the color attribute in
isolation: a local override of 7 wins, a per-kind theme entry of 9 wins
when no local override is set, and the global default is used otherwise. -/
theorem C3_style_cascade_witness :
    styleC.color theme0 = 7 ∧
    Style.new.color themeK = 9 ∧
    Style.new.color theme0 = theme0.background_color :=
  ⟨(C3_style_cascade styleC theme0).1.1 7 rfl,
   (C3_style_cascade Style.new themeK).1.2.1
     { Style.new with maybe_color := some 9 } 9 rfl rfl rfl,
   (C3_style_cascade Style.new theme0).1.2.2.1 rfl rfl⟩
